import Mathlib

/-!
Shallow embedding of the fixed-size linear-algebra core of the repository
(`src/js/matrix2x2|matrix3x3|matrix4x4|vector3.js`).  A matrix of order N is
its backing `entries` array, modelled as a `List` of field elements in
row-major layout; JS `number` arithmetic is modelled as exact field
arithmetic (instantiated at `ℝ` or `ℚ` in the theorems).  Mutating methods
are modelled as functions from the old `entries` value to the new one; the
`this.copy()` snapshot taken by `mult`/`premult` is reflected by reading all
inputs from the pre-call lists.
-/

/-- JS array element read `arr[i]`: every read the library actually performs
is in range, so the default value is irrelevant; we use `0`. -/
def jsGet {α : Type} [Zero α] (l : List α) (i : ℕ) : α :=
  l.getD i 0

/-- JS array element write `arr[i] = v`: an in-range index replaces the
element; the one out-of-range write the library performs
(`Matrix3x3._adjointDeterminant` at flat index `9` = the array's length)
appends, exactly as JS does for `arr[arr.length] = v`. -/
def jsSet {α : Type} (l : List α) (i : ℕ) (v : α) : List α :=
  if i < l.length then l.set i v else l ++ [v]

/-- Index list of the loop `for (let i = 0; i < 2; i++)`. -/
def loopTo2 : List ℕ := [0, 1]

/-- Index list of the loop `for (let i = 0; i < 3; i++)`. -/
def loopTo3 : List ℕ := [0, 1, 2]

/-- Index list of the loop `for (let i = 0; i < 4; i++)`. -/
def loopTo4 : List ℕ := [0, 1, 2, 3]

section MatrixDefs

variable {K : Type} [Field K] [DecidableEq K]

/-- `Matrix2x2.identity()` (`matrix2x2.js`): entries `[1,0,0,1]`. -/
def m2Id : List K := [1, 0, 0, 1]

/-- `Matrix2x2.determinant()` (`matrix2x2.js`):
`entries[0]*entries[3] - entries[1]*entries[2]`. -/
def m2Determinant (e : List K) : K :=
  jsGet e 0 * jsGet e 3 - jsGet e 1 * jsGet e 2

/-- `Matrix2x2.mult(b)` (`matrix2x2.js`): writes
`Σ_k a[i*2+k]*b[k*2+j]` into `this.entries[i*2+j]`, reading from the
snapshot copy `a` of the pre-call entries. -/
def m2MultEntries (a b : List K) : List K :=
  loopTo2.foldl (fun acc i =>
    loopTo2.foldl (fun acc2 j =>
      jsSet acc2 (i * 2 + j)
        (loopTo2.foldl (fun sum k =>
          sum + jsGet a (i * 2 + k) * jsGet b (k * 2 + j)) 0)) acc) a

/-- `Matrix2x2.premult(b)` (`matrix2x2.js`): writes
`Σ_k b[k*2+j]*a[i*2+k]` into `this.entries[i*2+j]` (note the index
pattern of the source: `b.entries[k * 2 + j] * a.entries[i * 2 + k]`). -/
def m2PremultEntries (a b : List K) : List K :=
  loopTo2.foldl (fun acc i =>
    loopTo2.foldl (fun acc2 j =>
      jsSet acc2 (i * 2 + j)
        (loopTo2.foldl (fun sum k =>
          sum + jsGet b (k * 2 + j) * jsGet a (i * 2 + k)) 0)) acc) a

/-- `Matrix3x3.identity()` (`matrix3x3.js`). -/
def m3Id : List K := [1, 0, 0, 0, 1, 0, 0, 0, 1]

/-- `Matrix3x3.translation(tx, ty)` (`matrix3x3.js`): last-row translation. -/
def m3Translation (tx ty : K) : List K := [1, 0, 0, 0, 1, 0, tx, ty, 1]

/-- `Matrix3x3.scaling(sx, sy)` (`matrix3x3.js`). -/
def m3Scaling (sx sy : K) : List K := [sx, 0, 0, 0, sy, 0, 0, 0, 1]

/-- `Matrix3x3._cofactor(i, j)` (`matrix3x3.js`): push `entries[a*3+b]` for
`a ≠ i`, `b ≠ j`, in loop order (the `continue` statements become filters). -/
def m3Cofactor (e : List K) (i j : ℕ) : List K :=
  (loopTo3.filter (fun a => a ≠ i)).flatMap fun a =>
    (loopTo3.filter (fun b => b ≠ j)).map fun b => jsGet e (a * 3 + b)

/-- `Matrix3x3.determinant()` (`matrix3x3.js`): Laplace expansion along
row 0, `sum += (-1)^j * entries[j] * cofactor(0,j).determinant()`. -/
def m3Determinant (e : List K) : K :=
  loopTo3.foldl (fun sum j =>
    sum + (-1) ^ j * jsGet e j * m2Determinant (m3Cofactor e 0 j)) 0

/-- `Matrix3x3._adjointDeterminant(i, j)` (`matrix3x3.js`): on a copy, set
`entries[k*3+i] = (k === j ? 1 : 0)` for `k = 0,1,2`, then take the
determinant.  For `i = 3` (reached by `inverse()`'s buggy loop) the write at
flat index `9` appends past the 9 backing entries, as in JS. -/
def m3AdjointDeterminant (e : List K) (i j : ℕ) : K :=
  m3Determinant
    (loopTo3.foldl (fun acc k => jsSet acc (k * 3 + i) (if k = j then 1 else 0)) e)

/-- `Matrix3x3.inverse()` (`matrix3x3.js`): throws when the determinant is
exactly `0` (modelled as `none`); otherwise pushes
`_adjointDeterminant(i, j) / det` with the source's loop bounds
`for (i = 0; i < 4; i++) for (j = 0; j < 4; j++)` — the hardcoded bound 4 of
the source, not the matrix order 3. -/
def m3Inverse (e : List K) : Option (List K) :=
  let det := m3Determinant e
  if det = 0 then none
  else some (loopTo4.flatMap fun i => loopTo4.map fun j => m3AdjointDeterminant e i j / det)

/-- `Matrix3x3.mult(b)` (`matrix3x3.js`): writes `Σ_k a[i*3+k]*b[k*3+j]`
into `this.entries[i*3+j]`, reading from the snapshot copy `a`. -/
def m3MultEntries (a b : List K) : List K :=
  loopTo3.foldl (fun acc i =>
    loopTo3.foldl (fun acc2 j =>
      jsSet acc2 (i * 3 + j)
        (loopTo3.foldl (fun sum k =>
          sum + jsGet a (i * 3 + k) * jsGet b (k * 3 + j)) 0)) acc) a

/-- `Matrix3x3.premult(b)` (`matrix3x3.js`): writes
`Σ_k b[k*3+j]*a[i*3+k]` into `this.entries[i*3+j]` (source index pattern
`b.entries[k * 3 + j] * a.entries[i * 3 + k]`). -/
def m3PremultEntries (a b : List K) : List K :=
  loopTo3.foldl (fun acc i =>
    loopTo3.foldl (fun acc2 j =>
      jsSet acc2 (i * 3 + j)
        (loopTo3.foldl (fun sum k =>
          sum + jsGet b (k * 3 + j) * jsGet a (i * 3 + k)) 0)) acc) a

/-- `Matrix4x4.identity()` (`matrix4x4.js`). -/
def m4Id : List K :=
  [1, 0, 0, 0, 0, 1, 0, 0, 0, 0, 1, 0, 0, 0, 0, 1]

/-- `Matrix4x4._cofactor(i, j)` (`matrix4x4.js`). -/
def m4Cofactor (e : List K) (i j : ℕ) : List K :=
  (loopTo4.filter (fun a => a ≠ i)).flatMap fun a =>
    (loopTo4.filter (fun b => b ≠ j)).map fun b => jsGet e (a * 4 + b)

/-- `Matrix4x4.determinant()` (`matrix4x4.js`): Laplace expansion along
row 0 with `Matrix3x3` cofactor determinants. -/
def m4Determinant (e : List K) : K :=
  loopTo4.foldl (fun sum j =>
    sum + (-1) ^ j * jsGet e j * m3Determinant (m4Cofactor e 0 j)) 0

/-- `Matrix4x4._adjointDeterminant(i, j)` (`matrix4x4.js`): on a copy, set
`entries[k*4+i] = (k === j ? 1 : 0)` for `k = 0..3`, then take the
determinant. -/
def m4AdjointDeterminant (e : List K) (i j : ℕ) : K :=
  m4Determinant
    (loopTo4.foldl (fun acc k => jsSet acc (k * 4 + i) (if k = j then 1 else 0)) e)

/-- `Matrix4x4.inverse()` (`matrix4x4.js`): throws when the determinant is
exactly `0` (modelled as `none`); otherwise pushes
`_adjointDeterminant(i, j) / det` for `i, j = 0..3`. -/
def m4Inverse (e : List K) : Option (List K) :=
  let det := m4Determinant e
  if det = 0 then none
  else some (loopTo4.flatMap fun i => loopTo4.map fun j => m4AdjointDeterminant e i j / det)

/-- `Matrix4x4.mult(b)` (`matrix4x4.js`): writes `Σ_k a[i*4+k]*b[k*4+j]`
into `this.entries[i*4+j]`, reading from the snapshot copy `a`. -/
def m4MultEntries (a b : List K) : List K :=
  loopTo4.foldl (fun acc i =>
    loopTo4.foldl (fun acc2 j =>
      jsSet acc2 (i * 4 + j)
        (loopTo4.foldl (fun sum k =>
          sum + jsGet a (i * 4 + k) * jsGet b (k * 4 + j)) 0)) acc) a

/-- `Matrix4x4.premult(b)` (`matrix4x4.js`): writes
`Σ_k b[i*4+k]*a[k*4+j]` into `this.entries[i*4+j]` (source index pattern
`b.entries[i * 4 + k] * a.entries[k * 4 + j]`, genuinely `b × a`). -/
def m4PremultEntries (a b : List K) : List K :=
  loopTo4.foldl (fun acc i =>
    loopTo4.foldl (fun acc2 j =>
      jsSet acc2 (i * 4 + j)
        (loopTo4.foldl (fun sum k =>
          sum + jsGet b (i * 4 + k) * jsGet a (k * 4 + j)) 0)) acc) a

end MatrixDefs

/-- `Matrix3x3.rotation(angleInRadians)` (`matrix3x3.js`):
`[c, -s, 0, s, c, 0, 0, 0, 1]` with `c = cos θ`, `s = sin θ`. -/
noncomputable def m3Rotation (angleInRadians : ℝ) : List ℝ :=
  [Real.cos angleInRadians, -Real.sin angleInRadians, 0,
   Real.sin angleInRadians,  Real.cos angleInRadians, 0,
   0, 0, 1]

/-- Modelled from the spec: the library itself contains no vector-times-matrix
routine (application happens in shader code outside `src/js`); the spec's
row-vector convention (glossary and section 4.3) is `v' = v × M` with the
matrix in row-major layout, so component `j` of the result is
`Σ_i v_i * M[i*3+j]`. -/
def rowTimesM3 (v : ℝ × ℝ × ℝ) (e : List ℝ) : ℝ × ℝ × ℝ :=
  (v.1 * jsGet e 0 + v.2.1 * jsGet e 3 + v.2.2 * jsGet e 6,
   v.1 * jsGet e 1 + v.2.1 * jsGet e 4 + v.2.2 * jsGet e 7,
   v.1 * jsGet e 2 + v.2.1 * jsGet e 5 + v.2.2 * jsGet e 8)

/-- The `Vector3` class of `vector3.js` (named `Vec3` here because Mathlib
already has a `Vector3`): three real components. -/
structure Vec3 where
  x : ℝ
  y : ℝ
  z : ℝ

/-- `Vec3.subtract(v1, v2)` (`vector3.js`): returns a new vector. -/
def Vec3.subtract (v1 v2 : Vec3) : Vec3 :=
  ⟨v1.x - v2.x, v1.y - v2.y, v1.z - v2.z⟩

/-- `Vec3.sum(v1, v2)` (`vector3.js`): returns a new vector. -/
def Vec3.sum (v1 v2 : Vec3) : Vec3 :=
  ⟨v1.x + v2.x, v1.y + v2.y, v1.z + v2.z⟩

/-- `Vec3.cross(v1, v2)` (`vector3.js`): returns a new vector
`(v1.y*v2.z - v1.z*v2.y, v1.z*v2.x - v1.x*v2.z, v1.x*v2.y - v1.y*v2.x)`. -/
def Vec3.cross (v1 v2 : Vec3) : Vec3 :=
  ⟨v1.y * v2.z - v1.z * v2.y,
   v1.z * v2.x - v1.x * v2.z,
   v1.x * v2.y - v1.y * v2.x⟩

/-- `Vector3.prototype.divide(d)` (`vector3.js`): in-place component-wise
division, modelled as old value to new value. -/
noncomputable def Vec3.divide (v : Vec3) (d : ℝ) : Vec3 :=
  ⟨v.x / d, v.y / d, v.z / d⟩

/-- `Vector3.prototype.length()` (`vector3.js`): `sqrt(x² + y² + z²)`. -/
noncomputable def Vec3.length (v : Vec3) : ℝ :=
  Real.sqrt (v.x ^ 2 + v.y ^ 2 + v.z ^ 2)

/-- `Number.EPSILON` of JS, `2⁻⁵²`, the value `normalize` compares against. -/
noncomputable def numberEpsilon : ℝ := 2 ^ (-52 : ℤ)

/-- `Vector3.prototype.normalize()` (`vector3.js`): if
`length > Number.EPSILON` divide by the length, otherwise `zeroValues()`
(all components exactly 0); either way the mutated vector itself is the
result. -/
noncomputable def Vec3.normalize (v : Vec3) : Vec3 :=
  if numberEpsilon < v.length then v.divide v.length else ⟨0, 0, 0⟩

/-- A heap of `Vector3` (here `Vec3`) objects, used to state which objects an operation
mutates: `mem` holds the value of each reference, references `≥ next` are
unallocated.  Fresh objects (`new Vector3(...)`) are allocated at `next`. -/
structure V3Store where
  mem : ℕ → Vec3
  next : ℕ

/-- Allocation of a fresh `Vector3` holding value `v` (a `new Vector3`
result, as returned by `Vec3.subtract`/`cross`): the new reference is the
old `next`. -/
def V3Store.allocate (σ : V3Store) (v : Vec3) : V3Store × ℕ :=
  (⟨Function.update σ.mem σ.next v, σ.next + 1⟩, σ.next)

/-- `normalize()` called on the object behind reference `r`: the object is
mutated in place and the method returns the receiver reference itself
(`return this` in `vector3.js`). -/
noncomputable def V3Store.normalizeRef (σ : V3Store) (r : ℕ) : ℕ × V3Store :=
  (r, ⟨Function.update σ.mem r (σ.mem r).normalize, σ.next⟩)

/-- `Matrix4x4.lookAt(origin, target, up)` (`matrix4x4.js`) on the object
heap: `zAxis = subtract(origin, target).normalize()`,
`xAxis = cross(up, zAxis).normalize()`, `yAxis = cross(zAxis, xAxis).normalize()`,
then the row-major result reads the axis objects and `origin` from the final
heap.  Returns the 16 result entries and the final heap. -/
noncomputable def m4LookAtStore (σ : V3Store) (origin target up : ℕ) :
    List ℝ × V3Store :=
  let p1 := σ.allocate (Vec3.subtract (σ.mem origin) (σ.mem target))
  let n1 := p1.1.normalizeRef p1.2
  let zAxis := n1.1
  let σ2 := n1.2
  let p2 := σ2.allocate (Vec3.cross (σ2.mem up) (σ2.mem zAxis))
  let n2 := p2.1.normalizeRef p2.2
  let xAxis := n2.1
  let σ3 := n2.2
  let p3 := σ3.allocate (Vec3.cross (σ3.mem zAxis) (σ3.mem xAxis))
  let n3 := p3.1.normalizeRef p3.2
  let yAxis := n3.1
  let σ4 := n3.2
  ([(σ4.mem xAxis).x, (σ4.mem xAxis).y, (σ4.mem xAxis).z, 0,
    (σ4.mem yAxis).x, (σ4.mem yAxis).y, (σ4.mem yAxis).z, 0,
    (σ4.mem zAxis).x, (σ4.mem zAxis).y, (σ4.mem zAxis).z, 0,
    (σ4.mem origin).x, (σ4.mem origin).y, (σ4.mem origin).z, 1], σ4)

/-!  Helper evaluation lemmas: closed forms of the determinants and products
on fully-destructured entry lists, so that concrete instances evaluate
without re-expanding the fold definitions each time. -/

theorem m2Determinant_explicit {K : Type} [Field K] [DecidableEq K]
    (a b c d : K) :
    m2Determinant [a, b, c, d] = a * d - b * c := by
  simp [m2Determinant, jsGet]

theorem m3Determinant_explicit {K : Type} [Field K] [DecidableEq K]
    (a b c d e f g h i : K) :
    m3Determinant [a, b, c, d, e, f, g, h, i]
      = a * (e * i - f * h) - b * (d * i - f * g) + c * (d * h - e * g) := by
  simp [m3Determinant, m3Cofactor, m2Determinant, jsGet, loopTo3]
  ring

theorem m4Determinant_explicit {K : Type} [Field K] [DecidableEq K]
    (a00 a01 a02 a03 a10 a11 a12 a13 a20 a21 a22 a23 a30 a31 a32 a33 : K) :
    m4Determinant [a00, a01, a02, a03, a10, a11, a12, a13,
                   a20, a21, a22, a23, a30, a31, a32, a33]
      = a00 * (a11 * (a22 * a33 - a23 * a32) - a12 * (a21 * a33 - a23 * a31)
               + a13 * (a21 * a32 - a22 * a31))
      - a01 * (a10 * (a22 * a33 - a23 * a32) - a12 * (a20 * a33 - a23 * a30)
               + a13 * (a20 * a32 - a22 * a30))
      + a02 * (a10 * (a21 * a33 - a23 * a31) - a11 * (a20 * a33 - a23 * a30)
               + a13 * (a20 * a31 - a21 * a30))
      - a03 * (a10 * (a21 * a32 - a22 * a31) - a11 * (a20 * a32 - a22 * a30)
               + a12 * (a20 * a31 - a21 * a30)) := by
  simp [m4Determinant, m4Cofactor, m3Determinant, m3Cofactor, m2Determinant,
    jsGet, loopTo3, loopTo4]
  ring

theorem m3Determinant_explicit10 {K : Type} [Field K] [DecidableEq K]
    (a b c d e f g h i x : K) :
    m3Determinant [a, b, c, d, e, f, g, h, i, x]
      = a * (e * i - f * h) - b * (d * i - f * g) + c * (d * h - e * g) := by
  simp [m3Determinant, m3Cofactor, m2Determinant, jsGet, loopTo3]
  ring

theorem numberEpsilon_pos : 0 < numberEpsilon := by
  rw [numberEpsilon]
  positivity

theorem m3InverseId_eval :
    m3Inverse (m3Id : List ℝ)
      = some [1, 0, 0, 0, 0, 1, 0, 0, 0, 0, 1, 0, 1, 1, 1, 1] := by
  norm_num [m3Inverse, m3AdjointDeterminant, m3Id, jsSet, loopTo3, loopTo4,
    m3Determinant_explicit, m3Determinant_explicit10, List.set]

theorem m3Rotation_pi_div_two :
    m3Rotation (Real.pi / 2) = [0, -1, 0, 1, 0, 0, 0, 0, 1] := by
  simp [m3Rotation, Real.cos_pi_div_two, Real.sin_pi_div_two]

/-- C1: for a non-singular `Matrix3x3`, the claim says `inverse()` returns a
matrix whose 9 entries, indexed by the matrix's own order `N = 3`, satisfy
`entry(i,j) = _adjointDeterminant(i,j) / determinant()`.  The code instead
loops `i, j` to the hardcoded bound 4: on the (non-singular) identity matrix
it produces 16 entries, and the flat entry at row-major position
`1*3+1 = 4` is `0` even though `_adjointDeterminant(1,1)/determinant() = 1`. -/
theorem c1_inverse_fill_loop_bug :
    m3Inverse (m3Id : List ℝ)
      = some [1, 0, 0, 0, 0, 1, 0, 0, 0, 0, 1, 0, 1, 1, 1, 1]
    ∧ m3AdjointDeterminant (m3Id : List ℝ) 1 1 / m3Determinant (m3Id : List ℝ)
        = 1 := by
  refine ⟨m3InverseId_eval, ?_⟩
  norm_num [m3AdjointDeterminant, m3Id, jsSet, loopTo3,
    m3Determinant_explicit, m3Determinant_explicit10, List.set]

/-- C2: the claim says every operation yields matrices whose entries
sequence has length exactly `N²`.  `Matrix3x3.inverse()` on the identity
matrix returns a `Matrix3x3` whose entries sequence has length 16, not 9. -/
theorem c2_inverse_length_bug :
    (m3Inverse (m3Id : List ℝ)).map List.length = some 16 := by
  rw [m3InverseId_eval]
  rfl

/-- C3: the claim says `M.mult(M.inverse())` leaves a non-singular `M` of
order 3 holding the identity.  For `M` the (non-singular) identity matrix,
`M.mult(M.inverse())` leaves `M` holding `[1,0,0, 0,0,1, 0,0,0]`, which
differs from the identity (e.g. at row 1, column 1: `0` instead of `1`). -/
theorem c3_inverse_law_bug :
    m3MultEntries (m3Id : List ℝ) ((m3Inverse m3Id).getD [])
      = [1, 0, 0, 0, 0, 1, 0, 0, 0]
    ∧ ([1, 0, 0, 0, 0, 1, 0, 0, 0] : List ℝ) ≠ m3Id := by
  constructor
  · rw [m3InverseId_eval]
    norm_num [m3MultEntries, m3Id, jsGet, jsSet, loopTo3, List.set]
  · simp [m3Id]

/-- C4: the claim says `premult(b)` replaces `this` with `b × this` for
every order `N ∈ {2,3,4}`.  For `N = 2` and `N = 3` the source multiplies
`b.entries[k*N+j] * a.entries[i*N+k]`, which is entrywise the same sum as
`mult` (`this × b`, factors merely commuted), so `premult` coincides with
`mult` on those orders; on a concrete non-commuting pair the result differs
from the required `b × this`. -/
theorem c4_premult_operand_order_bug :
    (∀ (a0 a1 a2 a3 a4 a5 a6 a7 a8 : ℝ) (b : List ℝ),
      m3PremultEntries [a0, a1, a2, a3, a4, a5, a6, a7, a8] b
        = m3MultEntries [a0, a1, a2, a3, a4, a5, a6, a7, a8] b)
    ∧ (∀ (a0 a1 a2 a3 : ℝ) (b : List ℝ),
      m2PremultEntries [a0, a1, a2, a3] b = m2MultEntries [a0, a1, a2, a3] b)
    ∧ m3PremultEntries ([1, 1, 0, 0, 1, 0, 0, 0, 1] : List ℝ)
          [1, 0, 0, 1, 1, 0, 0, 0, 1]
        ≠ m3MultEntries ([1, 0, 0, 1, 1, 0, 0, 0, 1] : List ℝ)
          [1, 1, 0, 0, 1, 0, 0, 0, 1] := by
  refine ⟨?_, ?_, ?_⟩
  · intro a0 a1 a2 a3 a4 a5 a6 a7 a8 b
    simp [m3PremultEntries, m3MultEntries, jsSet, jsGet, loopTo3, List.set,
      mul_comm]
  · intro a0 a1 a2 a3 b
    simp [m2PremultEntries, m2MultEntries, jsSet, jsGet, loopTo2, List.set,
      mul_comm]
  · have h1 : m3PremultEntries ([1, 1, 0, 0, 1, 0, 0, 0, 1] : List ℝ)
        [1, 0, 0, 1, 1, 0, 0, 0, 1] = [2, 1, 0, 1, 1, 0, 0, 0, 1] := by
      norm_num [m3PremultEntries, jsSet, jsGet, loopTo3, List.set]
    have h2 : m3MultEntries ([1, 0, 0, 1, 1, 0, 0, 0, 1] : List ℝ)
        [1, 1, 0, 0, 1, 0, 0, 0, 1] = [1, 1, 0, 1, 2, 0, 0, 0, 1] := by
      norm_num [m3MultEntries, jsSet, jsGet, loopTo3, List.set]
    rw [h1, h2]
    simp

/-- C5: `inverse()` of a matrix of order 3 or 4 raises (modelled: returns
`none`) exactly when the determinant is exactly `0`; otherwise it produces a
result matrix.  The source computes the determinant from the unmodified
entries and both the determinant and the adjoint determinants work on
copies, so the receiver is never mutated. -/
theorem c5_singular_inverse_error :
    ∀ (e3 e4 : List ℝ),
      (m3Inverse e3 = none ↔ m3Determinant e3 = 0)
      ∧ (m4Inverse e4 = none ↔ m4Determinant e4 = 0) := by
  intro e3 e4
  constructor
  · by_cases h : m3Determinant e3 = 0 <;> simp [m3Inverse, h]
  · by_cases h : m4Determinant e4 = 0 <;> simp [m4Inverse, h]

/-- C6 counterexample: the claim says `Matrix3x3.rotation(π/2)` applied by
right-multiplication to the row vector `(1,0,1)` yields `(0,1,1)` within
floating tolerance.  With exact reals the result is `(0,-1,1)`: its middle
component is `-1`, not within any tolerance of `1`. -/
theorem c6_rotation_row_vector_counterexample :
    rowTimesM3 (1, 0, 1) (m3Rotation (Real.pi / 2)) = (0, -1, 1)
    ∧ rowTimesM3 (1, 0, 1) (m3Rotation (Real.pi / 2)) ≠ (0, 1, 1) := by
  have h : rowTimesM3 (1, 0, 1) (m3Rotation (Real.pi / 2)) = (0, -1, 1) := by
    rw [m3Rotation_pi_div_two]
    norm_num [rowTimesM3, jsGet]
  refine ⟨h, ?_⟩
  rw [h]
  simp [Prod.ext_iff]
  norm_num

/-- C6 (amended): `Matrix3x3.rotation(π/2)` applied by right-multiplication
to the row vector `(1,0,1)` yields `(0,-1,1)` (exact in the real model). -/
theorem c6_rotation_row_vector :
    rowTimesM3 (1, 0, 1) (m3Rotation (Real.pi / 2)) = (0, -1, 1) := by
  rw [m3Rotation_pi_div_two]
  norm_num [rowTimesM3, jsGet]

/-- C7: `normalize()` on a vector whose length exceeds `Number.EPSILON`
mutates it to unit length; on a vector of length at most `Number.EPSILON`
(in particular the zero vector) it sets all three components to exactly `0`
with no error; in both cases the returned reference is the receiver itself. -/
theorem c7_normalize_contract :
    (∀ v : Vec3, numberEpsilon < v.length → v.normalize.length = 1)
    ∧ (∀ v : Vec3, v.length ≤ numberEpsilon → v.normalize = ⟨0, 0, 0⟩)
    ∧ (∀ (σ : V3Store) (r : ℕ), (σ.normalizeRef r).1 = r) := by
  refine ⟨?_, ?_, ?_⟩
  · intro v h
    have hL : 0 < v.length := lt_trans numberEpsilon_pos h
    have hS : (0 : ℝ) < v.x ^ 2 + v.y ^ 2 + v.z ^ 2 := by
      rw [Vec3.length] at hL
      exact Real.sqrt_pos.mp hL
    rw [Vec3.normalize, if_pos h]
    simp only [Vec3.length, Vec3.divide]
    rw [div_pow, div_pow, div_pow, div_add_div_same, div_add_div_same]
    rw [Real.sq_sqrt hS.le, div_self (ne_of_gt hS)]
    exact Real.sqrt_one
  · intro v h
    rw [Vec3.normalize, if_neg (not_lt.mpr h)]
  · intro σ r
    rfl

theorem c7_normalize_witness :
    Vec3.normalize ⟨0, 0, 0⟩ = ⟨0, 0, 0⟩
    ∧ (Vec3.normalize ⟨1, 2, 2⟩).length = 1 := by
  constructor
  · apply c7_normalize_contract.2.1
    simp only [Vec3.length]
    norm_num
    exact numberEpsilon_pos.le
  · apply c7_normalize_contract.1
    have h9 : Vec3.length ⟨1, 2, 2⟩ = 3 := by
      simp only [Vec3.length]
      norm_num
      rw [show (9 : ℝ) = 3 ^ 2 by norm_num]
      exact Real.sqrt_sq (by norm_num)
    rw [h9, numberEpsilon]
    calc (2 : ℝ) ^ (-52 : ℤ) ≤ 1 := zpow_le_one_of_nonpos₀ (by norm_num) (by norm_num)
    _ < 3 := by norm_num

/-- C8: `determinant()` of the identity of order 2, 3 and 4 is exactly 1,
and the determinant of any matrix of order 2, 3 or 4 with a zero row or a
zero column is exactly 0 (rows and columns in the row-major layout
`index = i*N + j`). -/
theorem c8_determinant_identity_zero_lines :
    (m2Determinant (m2Id : List ℝ) = 1
      ∧ m3Determinant (m3Id : List ℝ) = 1
      ∧ m4Determinant (m4Id : List ℝ) = 1)
    ∧ (∀ a b c d : ℝ,
        (a = 0 ∧ b = 0) ∨ (c = 0 ∧ d = 0) ∨ (a = 0 ∧ c = 0) ∨ (b = 0 ∧ d = 0) →
        m2Determinant [a, b, c, d] = 0)
    ∧ (∀ e0 e1 e2 e3 e4 e5 e6 e7 e8 : ℝ,
        (e0 = 0 ∧ e1 = 0 ∧ e2 = 0) ∨ (e3 = 0 ∧ e4 = 0 ∧ e5 = 0)
          ∨ (e6 = 0 ∧ e7 = 0 ∧ e8 = 0)
          ∨ (e0 = 0 ∧ e3 = 0 ∧ e6 = 0) ∨ (e1 = 0 ∧ e4 = 0 ∧ e7 = 0)
          ∨ (e2 = 0 ∧ e5 = 0 ∧ e8 = 0) →
        m3Determinant [e0, e1, e2, e3, e4, e5, e6, e7, e8] = 0)
    ∧ (∀ e0 e1 e2 e3 e4 e5 e6 e7 e8 e9 e10 e11 e12 e13 e14 e15 : ℝ,
        (e0 = 0 ∧ e1 = 0 ∧ e2 = 0 ∧ e3 = 0)
          ∨ (e4 = 0 ∧ e5 = 0 ∧ e6 = 0 ∧ e7 = 0)
          ∨ (e8 = 0 ∧ e9 = 0 ∧ e10 = 0 ∧ e11 = 0)
          ∨ (e12 = 0 ∧ e13 = 0 ∧ e14 = 0 ∧ e15 = 0)
          ∨ (e0 = 0 ∧ e4 = 0 ∧ e8 = 0 ∧ e12 = 0)
          ∨ (e1 = 0 ∧ e5 = 0 ∧ e9 = 0 ∧ e13 = 0)
          ∨ (e2 = 0 ∧ e6 = 0 ∧ e10 = 0 ∧ e14 = 0)
          ∨ (e3 = 0 ∧ e7 = 0 ∧ e11 = 0 ∧ e15 = 0) →
        m4Determinant [e0, e1, e2, e3, e4, e5, e6, e7, e8, e9, e10, e11,
          e12, e13, e14, e15] = 0) := by
  refine ⟨⟨?_, ?_, ?_⟩, ?_, ?_, ?_⟩
  · norm_num [m2Id, m2Determinant_explicit]
  · norm_num [m3Id, m3Determinant_explicit]
  · norm_num [m4Id, m4Determinant_explicit]
  · intro a b c d h
    rcases h with h | h | h | h <;>
      (obtain ⟨h1, h2⟩ := h; subst_vars; rw [m2Determinant_explicit]; ring)
  · intro e0 e1 e2 e3 e4 e5 e6 e7 e8 h
    rcases h with h | h | h | h | h | h <;>
      (obtain ⟨h1, h2, h3⟩ := h; subst_vars; rw [m3Determinant_explicit]; ring)
  · intro e0 e1 e2 e3 e4 e5 e6 e7 e8 e9 e10 e11 e12 e13 e14 e15 h
    rcases h with h | h | h | h | h | h | h | h <;>
      (obtain ⟨h1, h2, h3, h4⟩ := h; subst_vars; rw [m4Determinant_explicit]; ring)

theorem c8_determinant_witness :
    m2Determinant ([0, 0, 5, 7] : List ℝ) = 0
    ∧ m3Determinant ([0, 2, 3, 0, 5, 6, 0, 8, 9] : List ℝ) = 0
    ∧ m4Determinant
        ([0, 0, 0, 0, 5, 2, 8, 3, 7, 1, 9, 4, 6, 11, 13, 12] : List ℝ) = 0 :=
  ⟨c8_determinant_identity_zero_lines.2.1 0 0 5 7 (Or.inl ⟨rfl, rfl⟩),
   c8_determinant_identity_zero_lines.2.2.1 0 2 3 0 5 6 0 8 9
     (Or.inr (Or.inr (Or.inr (Or.inl ⟨rfl, rfl, rfl⟩)))),
   c8_determinant_identity_zero_lines.2.2.2 0 0 0 0 5 2 8 3 7 1 9 4 6 11 13 12
     (Or.inl ⟨rfl, rfl, rfl, rfl⟩)⟩

/-- C9: `Vector3.cross(a, b)` is the right-hand-rule cross product
`(a.y*b.z - a.z*b.y, a.z*b.x - a.x*b.z, a.x*b.y - a.y*b.x)`, and it is
anti-commutative: each component of `cross(a, b)` is the negation of the
corresponding component of `cross(b, a)`. -/
theorem c9_cross_formula_anticommutative :
    ∀ a b : Vec3,
      Vec3.cross a b
        = ⟨a.y * b.z - a.z * b.y, a.z * b.x - a.x * b.z, a.x * b.y - a.y * b.x⟩
      ∧ (Vec3.cross a b).x = -(Vec3.cross b a).x
      ∧ (Vec3.cross a b).y = -(Vec3.cross b a).y
      ∧ (Vec3.cross a b).z = -(Vec3.cross b a).z := by
  intro a b
  refine ⟨rfl, ?_, ?_, ?_⟩ <;> simp [Vec3.cross] <;> ring

/-- C10: `Matrix4x4.lookAt(origin, target, up)` leaves the components of all
three argument vectors unchanged: the `normalize` calls inside it mutate only
the freshly allocated intermediate vectors returned by `subtract`/`cross`,
never the caller's arguments. -/
theorem c10_lookAt_leaves_arguments :
    ∀ (σ : V3Store) (origin target up : ℕ),
      origin < σ.next → target < σ.next → up < σ.next →
      (m4LookAtStore σ origin target up).2.mem origin = σ.mem origin
      ∧ (m4LookAtStore σ origin target up).2.mem target = σ.mem target
      ∧ (m4LookAtStore σ origin target up).2.mem up = σ.mem up := by
  intro σ o t u ho ht hu
  have h1 : o ≠ σ.next := by omega
  have h2 : o ≠ σ.next + 1 := by omega
  have h3 : o ≠ σ.next + 2 := by omega
  have h4 : t ≠ σ.next := by omega
  have h5 : t ≠ σ.next + 1 := by omega
  have h6 : t ≠ σ.next + 2 := by omega
  have h7 : u ≠ σ.next := by omega
  have h8 : u ≠ σ.next + 1 := by omega
  have h9 : u ≠ σ.next + 2 := by omega
  refine ⟨?_, ?_, ?_⟩ <;>
    simp [m4LookAtStore, V3Store.allocate, V3Store.normalizeRef,
      Function.update_apply, h1, h2, h3, h4, h5, h6, h7, h8, h9]

theorem c10_lookAt_witness :
    (m4LookAtStore ⟨fun _ => ⟨0, 0, 1⟩, 3⟩ 0 1 2).2.mem 0 = ⟨0, 0, 1⟩
    ∧ (m4LookAtStore ⟨fun _ => ⟨0, 0, 1⟩, 3⟩ 0 1 2).2.mem 1 = ⟨0, 0, 1⟩
    ∧ (m4LookAtStore ⟨fun _ => ⟨0, 0, 1⟩, 3⟩ 0 1 2).2.mem 2 = ⟨0, 0, 1⟩ :=
  c10_lookAt_leaves_arguments ⟨fun _ => ⟨0, 0, 1⟩, 3⟩ 0 1 2
    (by norm_num) (by norm_num) (by norm_num)
